import Mathlib

/-!
Shallow embedding of the notification engine and command handler of
`monitor.py` (class `TerraformingMarsMonitor`).

The stateful methods are modelled as pure functions: the mutable attributes
`game_id` and `current_state` become explicit arguments and results, outbound
WhatsApp sends become a returned list of `(phone, message)` events, and log
lines (warnings / infos) become a returned list of diagnostic strings.
A Python exception (`KeyError` from indexing a malformed roster dict) is
modelled with `Except String`.

Strings from the source are reproduced verbatim.  Python `str.lower` and
`str.strip` are modelled on the ASCII range, which covers every character the
command-matching code compares against.
-/

namespace TMMonitor

/-- The value of the snapshot's `activePlayer` JSON field: either a single
color string or a list of colors (the multi-player encoding).  Python compares
these values with `==`/`!=`; a string never equals a list. -/
inductive ActiveVal where
  | str (s : String)
  | list (xs : List String)
  deriving DecidableEq, Repr

/-- One element of the snapshot's `players` array, a JSON object that should
have keys `color` and `name`.  `none` models a missing key, so that indexing
it (`player['color']`) raises `KeyError` as in Python. -/
structure PlayerEntry where
  color : Option String
  name : Option String
  deriving DecidableEq, Repr

/-- A fetched game state as far as `monitor.py` reads it: the `phase`,
`activePlayer` and `players` fields, each possibly absent (`dict.get`). -/
structure Snapshot where
  phase : Option String
  activePlayer : Option ActiveVal
  players : Option (List PlayerEntry)
  deriving DecidableEq, Repr

/-- Python truthiness of the snapshot dict, restricted to the modelled
fields: `not game_state` is true when the dict has no entries. -/
def Snapshot.falsy (s : Snapshot) : Bool :=
  s.phase.isNone && s.activePlayer.isNone && s.players.isNone

/-- Python truthiness of an `activePlayer` value (`if active_color:`):
a nonempty string or a nonempty list. -/
def ActiveVal.truthy : ActiveVal → Bool
  | .str s => if s = "" then false else true
  | .list xs => if xs = [] then false else true

/-- The `self.player_phones` dict: player name to the phone from the
environment, which may be unset (`None`).  The source builds it from four
distinct literal keys, so it is modelled as an association list with
first-match lookup. -/
abbrev PhoneDirectory := List (String × Option String)

/-- `self.player_phones.get(name)`, flattening the `None` stored for an
unset environment variable with the `None` of a missing key (both are falsy
at every use site). -/
def pyDictGet (d : PhoneDirectory) (k : String) : Option String :=
  match d.lookup k with
  | some v => v
  | none => none

/-- The phones the broadcast loops actually send to:
`for phone in self.player_phones.values(): if phone: ...` in order. -/
def configuredPhones (d : PhoneDirectory) : List String :=
  d.filterMap (fun nv =>
    match nv.2 with
    | some p => if p = "" then none else some p
    | none => none)

/-- `self.phone_to_player`: the dict comprehension
`{phone: name for name, phone in self.player_phones.items() if phone}`.
Later entries overwrite earlier ones, so lookup takes the last match. -/
def phone_to_player_lookup (d : PhoneDirectory) (phone : String) : Option String :=
  (d.filterMap (fun nv =>
    match nv.2 with
    | some p => if p = "" then none else some (p, nv.1)
    | none => none)).reverse.lookup phone

/-- `get_player_name_by_color(color, players)`: scan the roster for an entry
whose `color` equals the active color, returning its `name`; `None` if no
entry matches.  Indexing an entry that lacks the key raises `KeyError`. -/
def get_player_name_by_color (color : ActiveVal) (players : List PlayerEntry) :
    Except String (Option String) :=
  match players with
  | [] => .ok none
  | player :: rest =>
    match player.color with
    | none => .error "KeyError: color"
    | some c =>
      if ActiveVal.str c = color then
        match player.name with
        | none => .error "KeyError: name"
        | some n => .ok (some n)
      else
        get_player_name_by_color color rest

/-- `"🔬 It's research time!"` -/
def researchMessage : String := "🔬 It's research time!"

/-- `"🎮 It's your turn!"` -/
def turnMessage : String := "🎮 It's your turn!"

/-- `logging.warning(f"No phone number configured for {active_player_name}")` -/
def noPhoneWarning (nm : String) : String :=
  s!"No phone number configured for {nm}"

/-- `self.current_state is None or self.current_state.get('phase') != 'research'` -/
def researchEdge : Option Snapshot → Bool
  | none => true
  | some cs => if cs.phase = some "research" then false else true

/-- `self.current_state is None or self.current_state.get('activePlayer') != active_color` -/
def newTurn (cs : Option Snapshot) (ac : ActiveVal) : Bool :=
  match cs with
  | none => true
  | some c => if c.activePlayer = some ac then false else true

/-- The result of one `notify_players` call: the WhatsApp sends it performed
(as `(phone, message)` pairs in order), the log lines it emitted, and the
value of `self.current_state` afterwards. -/
structure EvalResult where
  events : List (String × String)
  diags : List String
  newBaseline : Option Snapshot
  deriving DecidableEq, Repr

/-- `notify_players(game_state)` as a pure function of the phone directory,
the previous `self.current_state` and the fetched state.  `.error` models the
`KeyError` a malformed roster entry raises, which propagates before the final
`self.current_state = game_state` assignment. -/
def notify_players (phones : PhoneDirectory) (current_state : Option Snapshot)
    (game_state : Option Snapshot) : Except String EvalResult :=
  match game_state with
  | none => .ok ⟨[], [], current_state⟩
  | some gs =>
    if gs.falsy then .ok ⟨[], [], current_state⟩
    else if gs.phase = some "research" then
      if researchEdge current_state then
        .ok ⟨(configuredPhones phones).map (fun p => (p, researchMessage)), [], some gs⟩
      else
        .ok ⟨[], [], some gs⟩
    else
      match gs.activePlayer with
      | none => .ok ⟨[], [], some gs⟩
      | some ac =>
        if ac.truthy then
          match get_player_name_by_color ac (gs.players.getD []) with
          | .error e => .error e
          | .ok none => .ok ⟨[], [], some gs⟩
          | .ok (some nm) =>
            if nm = "" then .ok ⟨[], [], some gs⟩
            else if newTurn current_state ac then
              match pyDictGet phones nm with
              | some ph =>
                if ph = "" then .ok ⟨[], [noPhoneWarning nm], some gs⟩
                else .ok ⟨[(ph, turnMessage)], [], some gs⟩
              | none => .ok ⟨[], [noPhoneWarning nm], some gs⟩
            else .ok ⟨[], [], some gs⟩
        else .ok ⟨[], [], some gs⟩

/-- Python `str.lower` on the ASCII range (all characters the handler
compares against are ASCII). -/
def asciiLower (c : Char) : Char :=
  if 'A' ≤ c ∧ c ≤ 'Z' then Char.ofNat (c.toNat + 32) else c

/-- `message_text.lower()` (ASCII). -/
def pyLower (s : String) : String :=
  String.mk (s.toList.map asciiLower)

/-- The characters Python `str.strip()` removes (ASCII whitespace). -/
def isPySpace (c : Char) : Bool :=
  c = ' ' || c = '\t' || c = '\n' || c = '\r' || c = '\x0b' || c = '\x0c'

/-- Python `str.strip()`: drop leading and trailing whitespace. -/
def pyStrip (s : String) : String :=
  String.mk (((s.toList.dropWhile isPySpace).reverse.dropWhile isPySpace).reverse)

/-- Python `text.split(' ')`: split on each single space, keeping empty
fields, over the character list. -/
def splitOnSpace : List Char → List (List Char)
  | [] => [[]]
  | c :: rest =>
    match splitOnSpace rest with
    | [] => [[]]
    | g :: gs => if c = ' ' then [] :: g :: gs else (c :: g) :: gs

/-- Python `text.split(' ')` as a list of strings. -/
def pySplitSpace (s : String) : List String :=
  (splitOnSpace s.toList).map String.mk

/-- Python `s.startswith(pre)`. -/
def pyStartsWith (s pre : String) : Bool :=
  pre.toList.isPrefixOf s.toList

/-- `message_text.lower().startswith('!gameid ')` -/
def matchesGameIdCommand (text : String) : Bool :=
  pyStartsWith (pyLower text) "!gameid "

/-- `message_text.split(' ')[1].strip()`: the element at index 1 of the
single-space split of the original text, stripped.  On the guarded path the
text contains a space, so the split has at least two elements. -/
def gameIdCandidate (text : String) : String :=
  pyStrip ((pySplitSpace text).getD 1 "")

/-- The confirmation broadcast after a successful game-id change. -/
def updateMessage (player_name old_game_id new_game_id : String) : String :=
  s!"🎲 Game ID updated by {player_name}\nOld game: {old_game_id}\nNew game: {new_game_id}"

/-- The rejection sent back to the sender when validation fails. -/
def invalidMessage (new_game_id : String) : String :=
  s!"❌ Invalid game ID: {new_game_id}\nMake sure the game exists and the ID is correct"

/-- `logging.warning(f"Received message from unknown number: {from_number}")` -/
def unknownNumberLog (from_number : String) : String :=
  s!"Received message from unknown number: {from_number}"

/-- `logging.info(f"Game ID updated to {new_game_id} by {player_name}")` -/
def updateLog (new_game_id player_name : String) : String :=
  s!"Game ID updated to {new_game_id} by {player_name}"

/-- The monitor's mutable attributes shared between the poll loop and the
webhook handler: the watched session id and the baseline snapshot. -/
structure MonitorState where
  game_id : String
  current_state : Option Snapshot
  deriving DecidableEq, Repr

/-- The result of one `handle_incoming_message` call: the state afterwards,
the WhatsApp sends performed, and the log lines emitted. -/
structure HandleResult where
  state : MonitorState
  events : List (String × String)
  diags : List String
  deriving DecidableEq, Repr

/-- `handle_incoming_message(message_text, from_number)` as a pure function.
`validate` stands for `validate_game_id`, the network round-trip that checks
a candidate id fetches successfully (it performs I/O, so it is passed in as
an oracle). -/
def handle_incoming_message (phones : PhoneDirectory) (validate : String → Bool)
    (st : MonitorState) (message_text from_number : String) : HandleResult :=
  match phone_to_player_lookup phones from_number with
  | none => ⟨st, [], [unknownNumberLog from_number]⟩
  | some player_name =>
    if matchesGameIdCommand message_text then
      let new_game_id := gameIdCandidate message_text
      if validate new_game_id then
        let old_game_id := st.game_id
        ⟨⟨new_game_id, none⟩,
         (configuredPhones phones).map
           (fun p => (p, updateMessage player_name old_game_id new_game_id)),
         [updateLog new_game_id player_name]⟩
      else
        ⟨st, [(from_number, invalidMessage new_game_id)], []⟩
    else ⟨st, [], []⟩

/-- The color-to-name resolution as the specification words it, for
comparison with the source's: prefer the live roster embedded in the current
snapshot (`current.players`); if that roster is unavailable, fall back to a
static pre-configured color-to-name table supplied at startup. -/
def resolveColorSpec (staticTable : List (String × String)) (color : String)
    (roster : Option (List PlayerEntry)) : Option String :=
  match roster with
  | some players =>
    match get_player_name_by_color (.str color) players with
    | .ok o => o
    | .error _ => none
  | none => staticTable.lookup color

/-! Concrete fixtures used by witnesses and counterexamples, following the
source's four-player directory and the specification's section-8 scenario. -/

/-- The four-player directory with Nick's and Tess's phones configured. -/
def phonesC : PhoneDirectory :=
  [("Katrin", none), ("Joe", none), ("Nick", some "+1555"), ("Tess", some "+1556")]

/-- Previous snapshot: action phase, red active, roster red = Tess. -/
def prevRedC : Snapshot :=
  ⟨some "action", some (.str "red"), some [⟨some "red", some "Tess"⟩]⟩

/-- Current snapshot: action phase, blue active, roster blue = Nick. -/
def curBlueC : Snapshot :=
  ⟨some "action", some (.str "blue"), some [⟨some "blue", some "Nick"⟩]⟩

/-- A snapshot in the research phase. -/
def researchSnapC : Snapshot := ⟨some "research", none, none⟩

/-- A snapshot whose `activePlayer` holds two colors at once. -/
def multiSnapC : Snapshot :=
  ⟨some "action", some (.list ["red", "blue"]),
   some [⟨some "red", some "Tess"⟩, ⟨some "blue", some "Nick"⟩]⟩

/-- Blue is active but the roster has no entry for blue. -/
def curBlueNoEntryC : Snapshot :=
  ⟨some "action", some (.str "blue"), some [⟨some "red", some "Tess"⟩]⟩

/-- Blue is active and resolves to Katrin, who has no configured phone. -/
def curBlueKatrinC : Snapshot :=
  ⟨some "action", some (.str "blue"), some [⟨some "blue", some "Katrin"⟩]⟩

/-- Blue is active but the `players` field is absent entirely. -/
def curBlueNoRosterC : Snapshot := ⟨some "action", some (.str "blue"), none⟩

/-- Blue is active and the first roster entry lacks its `color` key. -/
def malformedSnapC : Snapshot :=
  ⟨some "action", some (.str "blue"), some [⟨none, some "Tess"⟩]⟩

/-! Helper lemmas shared by the claim theorems. -/

/-- A color list never equals an entry's color string, so resolving a
multi-color value scans the whole roster and yields no name (provided every
entry has its `color` key, so the scan raises nothing). -/
theorem get_player_name_list_none (xs : List String) (players : List PlayerEntry)
    (h : ∀ e ∈ players, e.color.isSome) :
    get_player_name_by_color (.list xs) players = .ok none := by
  induction players with
  | nil => rfl
  | cons p rest ih =>
    obtain ⟨c, hc⟩ := Option.isSome_iff_exists.mp (h p (List.mem_cons_self p rest))
    have hne : ActiveVal.str c ≠ ActiveVal.list xs := by simp
    simp only [get_player_name_by_color, hc, if_neg hne]
    exact ih (fun e he => h e (List.mem_cons_of_mem p he))

/-- Resolution raises nothing when every roster entry has both keys. -/
theorem get_player_name_wf (ac : ActiveVal) (players : List PlayerEntry)
    (h : ∀ e ∈ players, e.color.isSome ∧ e.name.isSome) :
    ∃ o, get_player_name_by_color ac players = .ok o := by
  induction players with
  | nil => exact ⟨none, rfl⟩
  | cons p rest ih =>
    obtain ⟨c, hc⟩ := Option.isSome_iff_exists.mp (h p (List.mem_cons_self p rest)).1
    obtain ⟨n, hn⟩ := Option.isSome_iff_exists.mp (h p (List.mem_cons_self p rest)).2
    by_cases heq : ActiveVal.str c = ac
    · exact ⟨some n, by simp [get_player_name_by_color, hc, heq, hn]⟩
    · obtain ⟨o, ho⟩ := ih (fun e he => h e (List.mem_cons_of_mem p he))
      exact ⟨o, by simp [get_player_name_by_color, hc, heq, ho]⟩

/-- C1: in a non-research phase, when the single active color differs from
the previous snapshot's active player (or there is no previous snapshot) and
the color resolves through the current snapshot's roster to a name with a
configured phone, `notify_players` emits exactly one event, the turn message
to that phone, and nothing else. -/
theorem C1_turn_change (phones : PhoneDirectory) (prev : Option Snapshot)
    (s : Snapshot) (c nm ph : String)
    (hphase : s.phase ≠ some "research")
    (hac : s.activePlayer = some (.str c)) (hct : c ≠ "")
    (hprev : prev = none ∨ ∃ p, prev = some p ∧ p.activePlayer ≠ some (.str c))
    (hres : get_player_name_by_color (.str c) (s.players.getD []) = .ok (some nm))
    (hnm : nm ≠ "")
    (hph : pyDictGet phones nm = some ph) (hpht : ph ≠ "") :
    notify_players phones prev (some s) = .ok ⟨[(ph, turnMessage)], [], some s⟩ := by
  have hfalsy : s.falsy = false := by simp [Snapshot.falsy, hac]
  have htr : ActiveVal.truthy (.str c) = true := by simp [ActiveVal.truthy, hct]
  have hnew : newTurn prev (.str c) = true := by
    rcases hprev with rfl | ⟨p, rfl, hne⟩
    · rfl
    · simp [newTurn, hne]
  simp [notify_players, hfalsy, hphase, hac, htr, hres, hnm, hnew, hph, hpht]

/-- Witness for C1 at the specification's section-8 scenario: red to blue,
blue resolving to Nick, one event to Nick's phone. -/
theorem C1_turn_change_witness :
    notify_players phonesC (some prevRedC) (some curBlueC) =
      .ok ⟨[("+1555", turnMessage)], [], some curBlueC⟩ :=
  C1_turn_change phonesC (some prevRedC) curBlueC "blue" "Nick" "+1555"
    (by decide) rfl (by decide)
    (Or.inr ⟨prevRedC, rfl, by decide⟩)
    rfl (by decide) rfl (by decide)

/-- C2: whenever the current phase is research and the previous snapshot is
absent or not in research, `notify_players` emits exactly one research-phase
event per configured recipient, in directory order, and nothing else. -/
theorem C2_research_broadcast (phones : PhoneDirectory) (prev : Option Snapshot)
    (s : Snapshot)
    (hphase : s.phase = some "research")
    (hprev : prev = none ∨ ∃ p, prev = some p ∧ p.phase ≠ some "research") :
    notify_players phones prev (some s) =
      .ok ⟨(configuredPhones phones).map (fun p => (p, researchMessage)), [], some s⟩ := by
  have hfalsy : s.falsy = false := by simp [Snapshot.falsy, hphase]
  have hedge : researchEdge prev = true := by
    rcases hprev with rfl | ⟨p, rfl, hne⟩
    · rfl
    · simp [researchEdge, hne]
  simp [notify_players, hfalsy, hphase, hedge]

/-- Witness for C2: evaluating with no previous snapshot against a research
snapshot sends the research message to both configured phones. -/
theorem C2_research_broadcast_witness :
    notify_players phonesC none (some researchSnapC) =
      .ok ⟨[("+1555", researchMessage), ("+1556", researchMessage)], [], some researchSnapC⟩ :=
  (C2_research_broadcast phonesC none researchSnapC rfl (Or.inl rfl)).trans (by rfl)

/-- C3 counterexample: a present snapshot with none of the read fields is
falsy in Python (`if not game_state`), so evaluation returns early and the
baseline stays at the previous snapshot instead of being replaced. -/
theorem C3_counterexample :
    notify_players phonesC (some prevRedC) (some ⟨none, none, none⟩) =
      .ok ⟨[], [], some prevRedC⟩ ∧
    some prevRedC ≠ some (⟨none, none, none⟩ : Snapshot) :=
  ⟨rfl, by decide⟩

/-- C3 amended: when the current snapshot is absent, no events are emitted
and the baseline is unchanged; when it is present, not falsy, and evaluation
completes without raising, the baseline afterwards equals the current
snapshot in every branch. -/
theorem C3_baseline_lifecycle (phones : PhoneDirectory) (prev : Option Snapshot) :
    notify_players phones prev none = .ok ⟨[], [], prev⟩ ∧
    ∀ s r, s.falsy = false → notify_players phones prev (some s) = .ok r →
      r.newBaseline = some s := by
  refine ⟨rfl, ?_⟩
  intro s r hf h
  simp only [notify_players] at h
  rw [if_neg (by simp [hf])] at h
  repeat' split at h
  all_goals cases h
  all_goals rfl

/-- Witness for C3 amended: an absent fetch leaves the red baseline in
place, and the red-to-blue evaluation's result carries the blue snapshot as
the new baseline. -/
theorem C3_baseline_lifecycle_witness :
    notify_players phonesC (some prevRedC) none = .ok ⟨[], [], some prevRedC⟩ ∧
    EvalResult.newBaseline ⟨[("+1555", turnMessage)], [], some curBlueC⟩ = some curBlueC := by
  constructor
  · exact (C3_baseline_lifecycle phonesC (some prevRedC)).1
  · exact (C3_baseline_lifecycle phonesC (some prevRedC)).2 curBlueC
      ⟨[("+1555", turnMessage)], [], some curBlueC⟩ (by decide) (by rfl)

/-- C4 counterexample: the active set changed from green to the pair red,
blue, and two recipients are configured, yet no event at all is emitted —
there is no multi-color broadcast in the code. -/
theorem C4_counterexample :
    notify_players phonesC
        (some ⟨some "action", some (.str "green"), some []⟩) (some multiSnapC) =
      .ok ⟨[], [], some multiSnapC⟩ ∧
    configuredPhones phonesC = ["+1555", "+1556"] :=
  ⟨rfl, rfl⟩

/-- C4 amended: when `activePlayer` holds several colors, the value matches
no roster entry's color string, so `notify_players` emits no events and no
diagnostics at all (whatever the previous snapshot), rather than
broadcasting a waiting-on-multiple-players message. -/
theorem C4_multi_color_no_events (phones : PhoneDirectory) (prev : Option Snapshot)
    (s : Snapshot) (xs : List String)
    (hphase : s.phase ≠ some "research")
    (hac : s.activePlayer = some (.list xs))
    (hwf : ∀ e ∈ s.players.getD [], e.color.isSome) :
    notify_players phones prev (some s) = .ok ⟨[], [], some s⟩ := by
  have hfalsy : s.falsy = false := by simp [Snapshot.falsy, hac]
  by_cases hxs : xs = []
  · subst hxs
    simp [notify_players, hfalsy, hphase, hac, ActiveVal.truthy]
  · have hres := get_player_name_list_none xs (s.players.getD []) hwf
    simp [notify_players, hfalsy, hphase, hac, ActiveVal.truthy, hxs, hres]

/-- Witness for C4 amended: red active before, red and blue active now, both
resolvable and both phones configured — still zero events. -/
theorem C4_multi_color_no_events_witness :
    notify_players phonesC (some prevRedC) (some multiSnapC) =
      .ok ⟨[], [], some multiSnapC⟩ :=
  C4_multi_color_no_events phonesC (some prevRedC) multiSnapC ["red", "blue"]
    (by decide) rfl (by decide)

/-- C5 counterexample: the two-tier resolver the specification describes
finds Nick for blue through the static table when the roster is absent, yet
`notify_players` on a roster-less snapshot with blue active and Nick
configured emits nothing — the code consults no startup table. -/
theorem C5_counterexample :
    resolveColorSpec [("blue", "Nick")] "blue" none = some "Nick" ∧
    notify_players [("Nick", some "+1555")] none (some curBlueNoRosterC) =
      .ok ⟨[], [], some curBlueNoRosterC⟩ :=
  ⟨rfl, rfl⟩

/-- C5 amended: resolution uses only the live roster of the current
snapshot; when the `players` field is absent an empty roster is used, no
name resolves, and the evaluation emits no events and no diagnostics —
there is no fallback to a static color-to-name table. -/
theorem C5_no_fallback (phones : PhoneDirectory) (prev : Option Snapshot)
    (s : Snapshot) (hplayers : s.players = none) (hphase : s.phase ≠ some "research") :
    ∃ bl, notify_players phones prev (some s) = .ok ⟨[], [], bl⟩ := by
  by_cases hf : s.falsy = true
  · exact ⟨prev, by simp [notify_players, hf]⟩
  · have hf' : s.falsy = false := by simpa using hf
    rcases hac : s.activePlayer with _ | ac
    · exact ⟨some s, by simp [notify_players, hf', hphase, hac]⟩
    · by_cases ht : ac.truthy = true
      · have hres : get_player_name_by_color ac (s.players.getD []) = .ok none := by
          rw [hplayers]
          rfl
        exact ⟨some s, by simp [notify_players, hf', hphase, hac, ht, hres]⟩
      · have ht' : ac.truthy = false := by simpa using ht
        exact ⟨some s, by simp [notify_players, hf', hphase, hac, ht']⟩

/-- Witness for C5 amended: blue active, no roster field, Nick configured —
zero events. -/
theorem C5_no_fallback_witness :
    ∃ bl, notify_players [("Nick", some "+1555")] none (some curBlueNoRosterC) =
      .ok ⟨[], [], bl⟩ :=
  C5_no_fallback [("Nick", some "+1555")] none curBlueNoRosterC rfl (by decide)

/-- C6 counterexample: the active color changed from red to blue and blue
has no roster entry; zero events are emitted but the diagnostics list is
also empty — no diagnostic is recorded for an unresolvable color. -/
theorem C6_counterexample :
    notify_players phonesC (some prevRedC) (some curBlueNoEntryC) =
      .ok ⟨[], [], some curBlueNoEntryC⟩ :=
  rfl

/-- C6 amended: on a turn in a non-research phase with a truthy single
active color, if the color has no roster entry the evaluation emits zero
events and zero diagnostics; if it resolves to a name with no configured
phone, it emits zero events and exactly the no-phone warning. -/
theorem C6_undeliverable_turn (phones : PhoneDirectory) (prev : Option Snapshot)
    (s : Snapshot) (c : String)
    (hphase : s.phase ≠ some "research")
    (hac : s.activePlayer = some (.str c)) (hct : c ≠ "") :
    (get_player_name_by_color (.str c) (s.players.getD []) = .ok none →
      notify_players phones prev (some s) = .ok ⟨[], [], some s⟩) ∧
    (∀ nm, get_player_name_by_color (.str c) (s.players.getD []) = .ok (some nm) →
      nm ≠ "" → newTurn prev (.str c) = true → pyDictGet phones nm = none →
      notify_players phones prev (some s) = .ok ⟨[], [noPhoneWarning nm], some s⟩) := by
  have hfalsy : s.falsy = false := by simp [Snapshot.falsy, hac]
  have htr : ActiveVal.truthy (.str c) = true := by simp [ActiveVal.truthy, hct]
  constructor
  · intro hres
    simp [notify_players, hfalsy, hphase, hac, htr, hres]
  · intro nm hres hnm hnew hph
    simp [notify_players, hfalsy, hphase, hac, htr, hres, hnm, hnew, hph]

/-- Witness for C6 amended: blue with no roster entry gives zero events and
zero diagnostics; blue resolving to phone-less Katrin gives zero events and
the warning. -/
theorem C6_undeliverable_turn_witness :
    (notify_players phonesC (some prevRedC) (some curBlueNoEntryC) =
      .ok ⟨[], [], some curBlueNoEntryC⟩) ∧
    (notify_players phonesC (some prevRedC) (some curBlueKatrinC) =
      .ok ⟨[], [noPhoneWarning "Katrin"], some curBlueKatrinC⟩) := by
  constructor
  · exact (C6_undeliverable_turn phonesC (some prevRedC) curBlueNoEntryC "blue"
      (by decide) rfl (by decide)).1 rfl
  · exact (C6_undeliverable_turn phonesC (some prevRedC) curBlueKatrinC "blue"
      (by decide) rfl (by decide)).2 "Katrin" rfl (by decide) rfl rfl

/-- C7: on a message from a known sender that matches the command grammar
with a candidate id that validates, the handler swaps the watched session
id, resets the baseline to absent, broadcasts the confirmation naming the
old and new ids to all configured recipients, and logs the change. -/
theorem C7_change_session (phones : PhoneDirectory) (validate : String → Bool)
    (st : MonitorState) (text sender nm : String)
    (hknown : phone_to_player_lookup phones sender = some nm)
    (hcmd : matchesGameIdCommand text = true)
    (hval : validate (gameIdCandidate text) = true) :
    handle_incoming_message phones validate st text sender =
      ⟨⟨gameIdCandidate text, none⟩,
       (configuredPhones phones).map
         (fun p => (p, updateMessage nm st.game_id (gameIdCandidate text))),
       [updateLog (gameIdCandidate text) nm]⟩ := by
  simp [handle_incoming_message, hknown, hcmd, hval]

/-- Witness for C7: Nick changes the game to abc123; the id swaps, the
baseline resets to absent and both configured phones get the confirmation
naming old-id and abc123. -/
theorem C7_change_session_witness :
    handle_incoming_message phonesC (fun i => if i = "abc123" then true else false)
        ⟨"old-id", some prevRedC⟩ "!gameid abc123" "+1555" =
      ⟨⟨"abc123", none⟩,
       [("+1555", updateMessage "Nick" "old-id" "abc123"),
        ("+1556", updateMessage "Nick" "old-id" "abc123")],
       [updateLog "abc123" "Nick"]⟩ :=
  (C7_change_session phonesC (fun i => if i = "abc123" then true else false)
    ⟨"old-id", some prevRedC⟩ "!gameid abc123" "+1555" "Nick"
    rfl (by decide) (by decide)).trans (by rfl)

/-- C8: on a message from a known sender that matches the grammar but whose
candidate id fails validation, the handler sends the rejection to the sender
only, broadcasts nothing, and leaves the session id and baseline unchanged. -/
theorem C8_reject_invalid (phones : PhoneDirectory) (validate : String → Bool)
    (st : MonitorState) (text sender nm : String)
    (hknown : phone_to_player_lookup phones sender = some nm)
    (hcmd : matchesGameIdCommand text = true)
    (hval : validate (gameIdCandidate text) = false) :
    handle_incoming_message phones validate st text sender =
      ⟨st, [(sender, invalidMessage (gameIdCandidate text))], []⟩ := by
  simp [handle_incoming_message, hknown, hcmd, hval]

/-- Witness for C8: Tess sends an id that fails validation; only she gets
the rejection and the state keeps old-id and the red baseline. -/
theorem C8_reject_invalid_witness :
    handle_incoming_message phonesC (fun _ => false)
        ⟨"old-id", some prevRedC⟩ "!gameid zzz" "+1556" =
      ⟨⟨"old-id", some prevRedC⟩, [("+1556", invalidMessage "zzz")], []⟩ :=
  (C8_reject_invalid phonesC (fun _ => false) ⟨"old-id", some prevRedC⟩
    "!gameid zzz" "+1556" "Tess" rfl (by decide) rfl).trans (by rfl)

/-- C9 counterexample: blue is active and the first roster entry lacks its
`color` key; indexing it raises, so evaluation fails with an error instead
of treating the malformed entry as no actionable event. -/
theorem C9_counterexample :
    notify_players phonesC (some prevRedC) (some malformedSnapC) =
      .error "KeyError: color" :=
  rfl

/-- C9 amended: evaluation never fails with an error on missing snapshot
fields — `phase`, `activePlayer` or `players` may each be absent — and more
generally whenever every roster entry it may scan carries both of its keys;
only a malformed roster entry reached during resolution raises. -/
theorem C9_no_error_on_missing_fields (phones : PhoneDirectory) (prev : Option Snapshot)
    (s : Snapshot) (hwf : ∀ e ∈ s.players.getD [], e.color.isSome ∧ e.name.isSome) :
    ∃ r, notify_players phones prev (some s) = .ok r := by
  by_cases hf : s.falsy = true
  · exact ⟨⟨[], [], prev⟩, by simp [notify_players, hf]⟩
  have hf' : s.falsy = false := by simpa using hf
  by_cases hph : s.phase = some "research"
  · by_cases hedge : researchEdge prev = true
    · exact ⟨⟨(configuredPhones phones).map (fun p => (p, researchMessage)), [], some s⟩,
        by simp [notify_players, hf', hph, hedge]⟩
    · have hedge' : researchEdge prev = false := by simpa using hedge
      exact ⟨⟨[], [], some s⟩, by simp [notify_players, hf', hph, hedge']⟩
  · rcases hac : s.activePlayer with _ | ac
    · exact ⟨⟨[], [], some s⟩, by simp [notify_players, hf', hph, hac]⟩
    by_cases ht : ac.truthy = true
    · obtain ⟨o, ho⟩ := get_player_name_wf ac (s.players.getD []) hwf
      rcases o with _ | nm
      · exact ⟨⟨[], [], some s⟩, by simp [notify_players, hf', hph, hac, ht, ho]⟩
      by_cases hnm : nm = ""
      · exact ⟨⟨[], [], some s⟩, by simp [notify_players, hf', hph, hac, ht, ho, hnm]⟩
      by_cases hnew : newTurn prev ac = true
      · rcases hphn : pyDictGet phones nm with _ | p
        · exact ⟨⟨[], [noPhoneWarning nm], some s⟩,
            by simp [notify_players, hf', hph, hac, ht, ho, hnm, hnew, hphn]⟩
        by_cases hp : p = ""
        · exact ⟨⟨[], [noPhoneWarning nm], some s⟩,
            by simp [notify_players, hf', hph, hac, ht, ho, hnm, hnew, hphn, hp]⟩
        · exact ⟨⟨[(p, turnMessage)], [], some s⟩,
            by simp [notify_players, hf', hph, hac, ht, ho, hnm, hnew, hphn, hp]⟩
      · have hnew' : newTurn prev ac = false := by simpa using hnew
        exact ⟨⟨[], [], some s⟩,
          by simp [notify_players, hf', hph, hac, ht, ho, hnm, hnew']⟩
    · have ht' : ac.truthy = false := by simpa using ht
      exact ⟨⟨[], [], some s⟩, by simp [notify_players, hf', hph, hac, ht']⟩

/-- Witness for C9 amended: a snapshot missing both `phase` and `players`
evaluates without error. -/
theorem C9_no_error_on_missing_fields_witness :
    ∃ r, notify_players phonesC none (some ⟨none, some (.str "blue"), none⟩) = .ok r :=
  C9_no_error_on_missing_fields phonesC none ⟨none, some (.str "blue"), none⟩ (by decide)

/-- C10 counterexample: for the text `!gameid abc` followed by a newline,
the second space-separated token is the id with the newline attached, but
the handler strips it and stores plain `abc` — the claim omits the strip. -/
theorem C10_counterexample :
    (pySplitSpace "!gameid abc\n").getD 1 "" = "abc\n" ∧
    (handle_incoming_message phonesC (fun _ => true) ⟨"old-id", none⟩
        "!gameid abc\n" "+1555").state.game_id = "abc" ∧
    ("abc" : String) ≠ "abc\n" :=
  ⟨rfl, rfl, by decide⟩

/-- C10 amended: for a known sender, the text is treated as a session-change
command exactly when its ASCII-lowercased form starts with `!gameid ` (case
insensitive, trailing space required): otherwise the handler does nothing,
and when it matches, the candidate id used is the second space-separated
token of the original case-preserved text with surrounding whitespace
stripped, any further tokens ignored. -/
theorem C10_command_grammar (phones : PhoneDirectory) (validate : String → Bool)
    (st : MonitorState) (text sender nm : String)
    (hknown : phone_to_player_lookup phones sender = some nm) :
    (pyStartsWith (pyLower text) "!gameid " = false →
      handle_incoming_message phones validate st text sender = ⟨st, [], []⟩) ∧
    (pyStartsWith (pyLower text) "!gameid " = true →
      validate (pyStrip ((pySplitSpace text).getD 1 "")) = true →
      (handle_incoming_message phones validate st text sender).state.game_id =
        pyStrip ((pySplitSpace text).getD 1 "")) := by
  constructor
  · intro hcmd
    simp [handle_incoming_message, hknown, matchesGameIdCommand, hcmd]
  · intro hcmd hval
    rw [List.getD_eq_getElem?_getD] at hval
    simp [handle_incoming_message, hknown, matchesGameIdCommand, hcmd, gameIdCandidate]
    rw [if_pos hval]

/-- Witness for C10 amended: `hello` from Nick does nothing, while an
upper-cased `!GAMEID NewGame42 extra` matches and stores the case-preserved
second token `NewGame42`, ignoring the third. -/
theorem C10_command_grammar_witness :
    (handle_incoming_message phonesC (fun _ => true) ⟨"old-id", none⟩
        "hello" "+1555" = ⟨⟨"old-id", none⟩, [], []⟩) ∧
    ((handle_incoming_message phonesC (fun _ => true) ⟨"old-id", none⟩
        "!GAMEID NewGame42 extra" "+1555").state.game_id = "NewGame42") := by
  constructor
  · exact (C10_command_grammar phonesC (fun _ => true) ⟨"old-id", none⟩
      "hello" "+1555" "Nick" rfl).1 (by decide)
  · exact ((C10_command_grammar phonesC (fun _ => true) ⟨"old-id", none⟩
      "!GAMEID NewGame42 extra" "+1555" "Nick" rfl).2 (by decide) (by decide)).trans (by rfl)

end TMMonitor
